import Mathlib

/-!
# Railway Gap Filler — verification of the control logic

Shallow embedding of the two Arduino sketches of the repository:

* `railway_gap_filler.ino` — the debounced multi-band variant: a control
  loop over a state `(platformDeployed, consecutiveDetections,
  consecutiveNoDetections, servo angle)` fed one distance sample per
  iteration, plus the range sampler `measureDistance`.
* `src/unnamed/part_000` — the simple single-threshold variant: a loop
  that converts a pulse duration to a `long` distance and commands the
  servo to 90° or 0° with no debounce.

Distances in the `.ino` are C `float`s compared against `int` constants;
they are modelled as exact rationals (`ℚ`).  The C `int`/`long` counters
and angles are modelled as `ℤ`.  Hardware I/O (pins, delays, serial
prints, LEDs, buzzer) is outside the control logic and is not modelled.
-/

namespace GapFiller

/-- `const int THRESHOLD_DISTANCE = 20;` — train-detection threshold (cm);
promoted to `ℚ` because the source compares it against the `float` distance. -/
def THRESHOLD_DISTANCE : ℚ := 20

/-- `const int MIN_DISTANCE = 13;` — minimum reliable detection distance (cm). -/
def MIN_DISTANCE : ℚ := 13

/-- `const int MAX_DISTANCE = 25;` — maximum detection range (cm). -/
def MAX_DISTANCE : ℚ := 25

/-- `const int SERVO_RETRACTED = 0;` — servo angle when the platform is retracted. -/
def SERVO_RETRACTED : ℤ := 0

/-- `const int SERVO_EXTENDED = 90;` — servo angle when the platform is extended. -/
def SERVO_EXTENDED : ℤ := 90

/-- `const int DEBOUNCE_COUNT = 3;` — number of consistent readings required. -/
def DEBOUNCE_COUNT : ℤ := 3

/-- The timeout argument of `pulseIn(ECHO_PIN, HIGH, 30000)` in
`measureDistance`, in microseconds. -/
def PULSE_TIMEOUT_US : ℕ := 30000

/-- The mutable globals of the sketch that the control logic touches:
`platformDeployed`, the two debounce counters, and the last angle written
to the (identically driven) servos. -/
structure ControlState where
  platformDeployed : Bool
  consecutiveDetections : ℤ
  consecutiveNoDetections : ℤ
  servoAngle : ℤ
  deriving Repr, DecidableEq

/-- State after `setup()`: servos written to `SERVO_RETRACTED`, platform
not deployed, both counters at their zero initialisers. -/
def initState : ControlState :=
  { platformDeployed := false
    consecutiveDetections := 0
    consecutiveNoDetections := 0
    servoAngle := SERVO_RETRACTED }

/-- The deployed state with both counters zero — the state right after a
deployment (e.g. `runLoop initState [18, 18, 18]`). -/
def deployedState : ControlState :=
  { platformDeployed := true
    consecutiveDetections := 0
    consecutiveNoDetections := 0
    servoAngle := SERVO_EXTENDED }

/-- `deployPlatform()`: sweeps the servos up to `SERVO_EXTENDED` and sets
`platformDeployed = true`.  Only the final commanded angle of the blocking
sweep is retained; beeps and LEDs are I/O. -/
def deployPlatform (s : ControlState) : ControlState :=
  { s with platformDeployed := true, servoAngle := SERVO_EXTENDED }

/-- `retractPlatform()`: sweeps the servos down to `SERVO_RETRACTED` and
sets `platformDeployed = false`. -/
def retractPlatform (s : ControlState) : ControlState :=
  { s with platformDeployed := false, servoAngle := SERVO_RETRACTED }

/-- One iteration of `loop()` applied to the measured `distance`:
the three-way branch on `[MIN_DISTANCE, THRESHOLD_DISTANCE]`,
`> MAX_DISTANCE`, and the intermediate band, with the debounced
deploy/retract decisions. -/
def loopStep (s : ControlState) (distance : ℚ) : ControlState :=
  if MIN_DISTANCE ≤ distance ∧ distance ≤ THRESHOLD_DISTANCE then
    -- consecutiveDetections++; consecutiveNoDetections = 0;
    let s1 := { s with consecutiveDetections := s.consecutiveDetections + 1
                       consecutiveNoDetections := 0 }
    if DEBOUNCE_COUNT ≤ s1.consecutiveDetections ∧ s1.platformDeployed = false then
      { deployPlatform s1 with consecutiveDetections := 0 }
    else
      s1
  else if MAX_DISTANCE < distance then
    -- consecutiveNoDetections++; consecutiveDetections = 0;
    let s1 := { s with consecutiveNoDetections := s.consecutiveNoDetections + 1
                       consecutiveDetections := 0 }
    if DEBOUNCE_COUNT ≤ s1.consecutiveNoDetections ∧ s1.platformDeployed = true then
      { retractPlatform s1 with consecutiveNoDetections := 0 }
    else
      s1
  else
    { s with consecutiveDetections := 0, consecutiveNoDetections := 0 }

/-- Repeated `loop()` iterations over a list of distance samples. -/
def runLoop (s : ControlState) (samples : List ℚ) : ControlState :=
  samples.foldl loopStep s

/-- `measureDistance()` as a function of the `pulseIn` result `duration`
(in μs; `pulseIn` returns `0` on timeout): computes
`dist = duration * 0.0343 / 2` and returns the sentinel `999` when
`duration == 0`, `dist` otherwise. -/
def measureDistance (duration : ℕ) : ℚ :=
  let dist : ℚ := (duration * (343 / 10000)) / 2
  if duration = 0 then 999 else dist

end GapFiller

namespace SimpleVariant

/-- `distance = duration * 0.034 / 2;` of the simple sketch: the real
value is truncated by the assignment to the `long distance`; for the
non-negative `pulseIn` durations truncation is the floor. -/
def distanceOf (duration : ℕ) : ℤ :=
  ⌊(duration * (34 / 1000 : ℚ)) / 2⌋

/-- The decision of the simple sketch's `loop()` on a measured distance:
`if (distance > 0 && distance < 25) platformServo.write(90); else
platformServo.write(0);` — returns the angle commanded in that iteration. -/
def servoCommand (distance : ℤ) : ℤ :=
  if 0 < distance ∧ distance < 25 then 90 else 0

end SimpleVariant

namespace GapFiller

/-- The sample lies in the detection band `[MIN_DISTANCE, THRESHOLD_DISTANCE]`
of the first branch of `loop()`. -/
def inBandB (d : ℚ) : Bool :=
  decide (MIN_DISTANCE ≤ d ∧ d ≤ THRESHOLD_DISTANCE)

/-- The sample lies beyond `MAX_DISTANCE` (the departure branch of `loop()`). -/
def farB (d : ℚ) : Bool :=
  decide (MAX_DISTANCE < d)

/-- Length of the maximal suffix of `tr` all of whose samples satisfy `p`:
the number of consecutive most-recent samples with property `p`. -/
def trailingRun (p : ℚ → Bool) (tr : List ℚ) : ℕ :=
  (tr.reverse.takeWhile p).length

theorem runLoop_append_single (s : ControlState) (tr : List ℚ) (d : ℚ) :
    runLoop s (tr ++ [d]) = loopStep (runLoop s tr) d := by
  simp [runLoop, List.foldl_append]

theorem trailingRun_append (p : ℚ → Bool) (tr : List ℚ) (d : ℚ) :
    trailingRun p (tr ++ [d]) = if p d then trailingRun p tr + 1 else 0 := by
  cases hp : p d <;> simp [trailingRun, List.reverse_append, List.takeWhile_cons, hp]

/-- If the platform was not deployed and one `loop()` iteration leaves it
deployed, the sample was in the detection band and the incremented
detection counter reached `DEBOUNCE_COUNT`. -/
theorem loopStep_deploy_char (s : ControlState) (d : ℚ)
    (h0 : s.platformDeployed = false) (h1 : (loopStep s d).platformDeployed = true) :
    (MIN_DISTANCE ≤ d ∧ d ≤ THRESHOLD_DISTANCE) ∧
      DEBOUNCE_COUNT ≤ s.consecutiveDetections + 1 := by
  simp only [loopStep] at h1
  split_ifs at h1 with hband hdep hfar hret <;>
    simp_all [deployPlatform, retractPlatform]

/-- If the platform was deployed and one `loop()` iteration leaves it not
deployed, the sample was beyond `MAX_DISTANCE` and the incremented
no-detection counter reached `DEBOUNCE_COUNT`. -/
theorem loopStep_retract_char (s : ControlState) (d : ℚ)
    (h0 : s.platformDeployed = true) (h1 : (loopStep s d).platformDeployed = false) :
    MAX_DISTANCE < d ∧ DEBOUNCE_COUNT ≤ s.consecutiveNoDetections + 1 := by
  simp only [loopStep] at h1
  split_ifs at h1 with hband hdep hfar hret <;>
    simp_all [deployPlatform, retractPlatform]

/-- A sample outside the detection band zeroes `consecutiveDetections`. -/
theorem loopStep_resets_detections (s : ControlState) (d : ℚ)
    (h : ¬(MIN_DISTANCE ≤ d ∧ d ≤ THRESHOLD_DISTANCE)) :
    (loopStep s d).consecutiveDetections = 0 := by
  simp only [loopStep]
  split_ifs with hband hfar <;> simp_all [retractPlatform]

/-- A sample not beyond `MAX_DISTANCE` zeroes `consecutiveNoDetections`. -/
theorem loopStep_resets_noDetections (s : ControlState) (d : ℚ)
    (h : ¬MAX_DISTANCE < d) :
    (loopStep s d).consecutiveNoDetections = 0 := by
  simp only [loopStep]
  split_ifs with hband hdep <;> simp_all [deployPlatform]

/-- After any `loop()` iteration at least one of the two debounce
counters is zero: every branch zeroes one of them. -/
theorem loopStep_counter_mutex (s : ControlState) (d : ℚ) :
    (loopStep s d).consecutiveDetections = 0 ∨
      (loopStep s d).consecutiveNoDetections = 0 := by
  simp only [loopStep]
  split_ifs <;> simp [deployPlatform, retractPlatform]

/-- The in-band branch of `loop()` written out: increment
`consecutiveDetections`, zero `consecutiveNoDetections`, and deploy when
the debounced count is reached while not deployed. -/
theorem loopStep_inBand (s : ControlState) (d : ℚ)
    (h : MIN_DISTANCE ≤ d ∧ d ≤ THRESHOLD_DISTANCE) :
    loopStep s d =
      if DEBOUNCE_COUNT ≤ s.consecutiveDetections + 1 ∧ s.platformDeployed = false then
        { platformDeployed := true, consecutiveDetections := 0,
          consecutiveNoDetections := 0, servoAngle := SERVO_EXTENDED }
      else
        { s with consecutiveDetections := s.consecutiveDetections + 1,
                 consecutiveNoDetections := 0 } := by
  simp only [loopStep, if_pos h, deployPlatform]

/-- The departure branch of `loop()` written out: increment
`consecutiveNoDetections`, zero `consecutiveDetections`, and retract when
the debounced count is reached while deployed. -/
theorem loopStep_far (s : ControlState) (d : ℚ)
    (hb : ¬(MIN_DISTANCE ≤ d ∧ d ≤ THRESHOLD_DISTANCE)) (hf : MAX_DISTANCE < d) :
    loopStep s d =
      if DEBOUNCE_COUNT ≤ s.consecutiveNoDetections + 1 ∧ s.platformDeployed = true then
        { platformDeployed := false, consecutiveDetections := 0,
          consecutiveNoDetections := 0, servoAngle := SERVO_RETRACTED }
      else
        { s with consecutiveNoDetections := s.consecutiveNoDetections + 1,
                 consecutiveDetections := 0 } := by
  simp only [loopStep, if_neg hb, if_pos hf, retractPlatform]

/-- The final `else` branch of `loop()` written out: both counters are
zeroed and nothing else changes. -/
theorem loopStep_between (s : ControlState) (d : ℚ)
    (hb : ¬(MIN_DISTANCE ≤ d ∧ d ≤ THRESHOLD_DISTANCE)) (hf : ¬MAX_DISTANCE < d) :
    loopStep s d =
      { s with consecutiveDetections := 0, consecutiveNoDetections := 0 } := by
  simp only [loopStep, if_neg hb, if_neg hf]

/-- Invariant of all states reachable from `initState`: both counters are
non-negative; each counter is bounded by the length of the trailing run of
samples of its kind; while the platform is not deployed the detection
counter stays below `DEBOUNCE_COUNT`, and while it is deployed the
no-detection counter stays below `DEBOUNCE_COUNT`. -/
theorem runLoop_inv (tr : List ℚ) :
    0 ≤ (runLoop initState tr).consecutiveDetections ∧
    0 ≤ (runLoop initState tr).consecutiveNoDetections ∧
    (runLoop initState tr).consecutiveDetections ≤ (trailingRun inBandB tr : ℤ) ∧
    (runLoop initState tr).consecutiveNoDetections ≤ (trailingRun farB tr : ℤ) ∧
    ((runLoop initState tr).platformDeployed = false →
      (runLoop initState tr).consecutiveDetections < DEBOUNCE_COUNT) ∧
    ((runLoop initState tr).platformDeployed = true →
      (runLoop initState tr).consecutiveNoDetections < DEBOUNCE_COUNT) := by
  induction tr using List.reverseRecOn with
  | nil => simp [runLoop, initState, trailingRun, DEBOUNCE_COUNT]
  | append_singleton tr d ih =>
    obtain ⟨h1, h2, h3, h4, h5, h6⟩ := ih
    rw [runLoop_append_single, trailingRun_append, trailingRun_append]
    by_cases hband : MIN_DISTANCE ≤ d ∧ d ≤ THRESHOLD_DISTANCE
    · have hb : inBandB d = true := by simp [inBandB, hband]
      have hf : farB d = false := by
        have h20 := hband.2
        simp only [THRESHOLD_DISTANCE] at h20
        simp only [farB, MAX_DISTANCE, decide_eq_false_iff_not, not_lt]
        linarith
      rw [loopStep_inBand _ _ hband, hb, hf]
      split_ifs with hdep <;> cases hpd : (runLoop initState tr).platformDeployed <;>
        simp_all [DEBOUNCE_COUNT] <;> omega
    · have hb : inBandB d = false := by simp [inBandB, hband]
      by_cases hfar : MAX_DISTANCE < d
      · have hf : farB d = true := by simp [farB, hfar]
        rw [loopStep_far _ _ hband hfar, hb, hf]
        split_ifs with hret <;> cases hpd : (runLoop initState tr).platformDeployed <;>
          simp_all [DEBOUNCE_COUNT] <;> omega
      · have hf : farB d = false := by simp [farB, hfar]
        rw [loopStep_between _ _ hband hfar, hb, hf]
        simp_all [DEBOUNCE_COUNT]

/-- A run of `loop()` iterations all of whose samples lie strictly below
`MIN_DISTANCE` takes the final `else` branch throughout, so the platform
flag and the servo angle never change. -/
theorem runLoop_const_below_min (tr : List ℚ) :
    ∀ s : ControlState, (∀ x ∈ tr, x < MIN_DISTANCE) →
      (runLoop s tr).platformDeployed = s.platformDeployed ∧
      (runLoop s tr).servoAngle = s.servoAngle := by
  induction tr with
  | nil => intro s _; exact ⟨rfl, rfl⟩
  | cons x tr ih =>
    intro s htr
    have hx : x < MIN_DISTANCE := htr x (by simp)
    have hb : ¬(MIN_DISTANCE ≤ x ∧ x ≤ THRESHOLD_DISTANCE) := by
      rintro ⟨h, -⟩; exact absurd hx (not_lt.mpr h)
    have hf : ¬MAX_DISTANCE < x := by
      simp only [MIN_DISTANCE] at hx
      simp only [MAX_DISTANCE, not_lt]
      linarith
    have hstep : runLoop s (x :: tr) = runLoop (loopStep s x) tr := by
      simp [runLoop]
    rw [hstep, loopStep_between _ _ hb hf]
    obtain ⟨hp, ha⟩ := ih _ (fun y hy => htr y (List.mem_cons_of_mem _ hy))
    exact ⟨hp, ha⟩

/-- C5: from the initial state with MIN_DISTANCE=13, THRESHOLD_DISTANCE=20
and DEBOUNCE_COUNT=3, the sample sequence [45, 32, 18, 18, 18] leaves the
platform undeployed after each of the first four samples, and the platform
deploys exactly on the third consecutive 18 cm reading (the fifth sample),
the servos being commanded to the extended angle. -/
theorem C5_deploy_scenario :
    (runLoop initState [45]).platformDeployed = false ∧
    (runLoop initState [45, 32]).platformDeployed = false ∧
    (runLoop initState [45, 32, 18]).platformDeployed = false ∧
    (runLoop initState [45, 32, 18, 18]).platformDeployed = false ∧
    (runLoop initState [45, 32, 18, 18, 18]).platformDeployed = true ∧
    (runLoop initState [45, 32, 18, 18, 18]).servoAngle = SERVO_EXTENDED := by
  decide

/-- C6: starting deployed with both counters zero, MAX_DISTANCE=25 and
DEBOUNCE_COUNT=3, the samples [15, 35, 35, 35] keep the platform deployed
through the first three samples — the initial 15 cm reading leaves the
no-detection counter at zero — and the platform retracts exactly on the
third consecutive 35 cm reading. -/
theorem C6_retract_scenario :
    (runLoop deployedState [15]).platformDeployed = true ∧
    (runLoop deployedState [15]).consecutiveNoDetections = 0 ∧
    (runLoop deployedState [15, 35]).platformDeployed = true ∧
    (runLoop deployedState [15, 35, 35]).platformDeployed = true ∧
    (runLoop deployedState [15, 35, 35, 35]).platformDeployed = false ∧
    (runLoop deployedState [15, 35, 35, 35]).servoAngle = SERVO_RETRACTED := by
  decide

/-- C8: deployment is idempotent at the state level — applied to an
already-deployed state, `deployPlatform` yields a deployed state, applying
it twice equals applying it once, and iterating it `n + 1` times equals
applying it once. -/
theorem C8_deploy_idempotent (s : ControlState) (n : ℕ)
    (h : s.platformDeployed = true) :
    (deployPlatform s).platformDeployed = true ∧
    deployPlatform (deployPlatform s) = deployPlatform s ∧
    deployPlatform^[n + 1] s = deployPlatform s := by
  refine ⟨rfl, rfl, ?_⟩
  induction n with
  | zero => rfl
  | succ n ih => rw [Function.iterate_succ_apply', ih]; rfl

/-- C8 witness: the idempotence facts at the concrete deployed state and
five iterations. -/
theorem C8_deploy_idempotent_run :
    (deployPlatform deployedState).platformDeployed = true ∧
    deployPlatform (deployPlatform deployedState) = deployPlatform deployedState ∧
    deployPlatform^[4 + 1] deployedState = deployPlatform deployedState :=
  C8_deploy_idempotent deployedState 4 rfl

/-- C9: a sample strictly below MIN_DISTANCE falls into the final `else`
branch — both counters are zeroed and neither a deploy nor a retract
happens — and a whole run of such samples from the initial state leaves
the platform undeployed and the servos at the retracted angle. -/
theorem C9_below_min_resets (s : ControlState) (d : ℚ) (tr : List ℚ)
    (hd : d < MIN_DISTANCE) (htr : ∀ x ∈ tr, x < MIN_DISTANCE) :
    (loopStep s d).consecutiveDetections = 0 ∧
    (loopStep s d).consecutiveNoDetections = 0 ∧
    (loopStep s d).platformDeployed = s.platformDeployed ∧
    (loopStep s d).servoAngle = s.servoAngle ∧
    (runLoop initState tr).platformDeployed = false ∧
    (runLoop initState tr).servoAngle = SERVO_RETRACTED := by
  have hb : ¬(MIN_DISTANCE ≤ d ∧ d ≤ THRESHOLD_DISTANCE) := by
    rintro ⟨h, -⟩; exact absurd hd (not_lt.mpr h)
  have hf : ¬MAX_DISTANCE < d := by
    simp only [MIN_DISTANCE] at hd
    simp only [MAX_DISTANCE, not_lt]
    linarith
  obtain ⟨hp, ha⟩ := runLoop_const_below_min tr initState htr
  rw [loopStep_between _ _ hb hf]
  exact ⟨rfl, rfl, rfl, rfl, hp, ha⟩

/-- C9 witness: the no-action facts at the concrete sample 5 cm and the
concrete close-range run [5, 1]. -/
theorem C9_below_min_resets_run :
    (loopStep initState 5).consecutiveDetections = 0 ∧
    (loopStep initState 5).consecutiveNoDetections = 0 ∧
    (loopStep initState 5).platformDeployed = initState.platformDeployed ∧
    (loopStep initState 5).servoAngle = initState.servoAngle ∧
    (runLoop initState [5, 1]).platformDeployed = false ∧
    (runLoop initState [5, 1]).servoAngle = SERVO_RETRACTED :=
  C9_below_min_resets initState 5 [5, 1] (by decide) (by decide)

/-- C10: starting from the initial state (both counters zero), after every
sequence of loop iterations at least one of the two debounce counters is
zero — they are never simultaneously positive in a reachable state. -/
theorem C10_counters_mutex (tr : List ℚ) :
    (runLoop initState tr).consecutiveDetections = 0 ∨
    (runLoop initState tr).consecutiveNoDetections = 0 := by
  induction tr using List.reverseRecOn with
  | nil => exact Or.inl rfl
  | append_singleton tr d ih =>
    rw [runLoop_append_single]
    exact loopStep_counter_mutex _ d

/-- C1: hysteresis invariant — over any sample sequence from the initial
state, the platform never becomes deployed unless the DEBOUNCE_COUNT most
recent samples (the triggering one included) all lie in the closed band
[MIN_DISTANCE, THRESHOLD_DISTANCE], and never retracts from deployed
unless the DEBOUNCE_COUNT most recent samples all exceed MAX_DISTANCE. -/
theorem C1_hysteresis (tr : List ℚ) (d : ℚ) :
    ((runLoop initState tr).platformDeployed = false →
      (loopStep (runLoop initState tr) d).platformDeployed = true →
      DEBOUNCE_COUNT ≤ (trailingRun inBandB (tr ++ [d]) : ℤ)) ∧
    ((runLoop initState tr).platformDeployed = true →
      (loopStep (runLoop initState tr) d).platformDeployed = false →
      DEBOUNCE_COUNT ≤ (trailingRun farB (tr ++ [d]) : ℤ)) := by
  obtain ⟨-, -, h3, h4, -, -⟩ := runLoop_inv tr
  constructor
  · intro h0 h1
    obtain ⟨hband, hcnt⟩ := loopStep_deploy_char _ _ h0 h1
    have hb : inBandB d = true := by simp [inBandB, hband]
    rw [trailingRun_append, hb]
    simp only [if_true]
    simp only [DEBOUNCE_COUNT] at hcnt ⊢
    omega
  · intro h0 h1
    obtain ⟨hfar, hcnt⟩ := loopStep_retract_char _ _ h0 h1
    have hf : farB d = true := by simp [farB, hfar]
    rw [trailingRun_append, hf]
    simp only [if_true]
    simp only [DEBOUNCE_COUNT] at hcnt ⊢
    omega

/-- C1 witness: a deployment after the in-band run [18, 18, 18] and a
retraction after the far run [35, 35, 35] each exhibit the required
trailing runs of length DEBOUNCE_COUNT. -/
theorem C1_hysteresis_runs :
    DEBOUNCE_COUNT ≤ (trailingRun inBandB ([18, 18] ++ [18]) : ℤ) ∧
    DEBOUNCE_COUNT ≤ (trailingRun farB ([18, 18, 18, 35, 35] ++ [35]) : ℤ) :=
  ⟨(C1_hysteresis [18, 18] 18).1 (by decide) (by decide),
   (C1_hysteresis [18, 18, 18, 35, 35] 35).2 (by decide) (by decide)⟩

/-- C2: a sensor timeout is treated as "no train" in both variants — the
debounced sketch turns a zero duration into the sentinel 999, which
exceeds MAX_DISTANCE, zeroes the detection counter, and (when not
deployed) merely bumps the no-detection counter without deploying; the
simple sketch turns a missing echo into distance 0, whose servo command
is the retracted angle. -/
theorem C2_sentinel_no_train (s : ControlState) :
    MAX_DISTANCE < (999 : ℚ) ∧
    measureDistance 0 = 999 ∧
    (loopStep s 999).consecutiveDetections = 0 ∧
    (s.platformDeployed = false →
      (loopStep s 999).platformDeployed = false ∧
      (loopStep s 999).consecutiveNoDetections = s.consecutiveNoDetections + 1) ∧
    SimpleVariant.distanceOf 0 = 0 ∧
    SimpleVariant.servoCommand (SimpleVariant.distanceOf 0) = 0 := by
  have hb : ¬(MIN_DISTANCE ≤ (999 : ℚ) ∧ (999 : ℚ) ≤ THRESHOLD_DISTANCE) := by
    norm_num [MIN_DISTANCE, THRESHOLD_DISTANCE]
  have hf : MAX_DISTANCE < (999 : ℚ) := by norm_num [MAX_DISTANCE]
  refine ⟨hf, by simp [measureDistance], ?_, ?_, ?_, ?_⟩
  · rw [loopStep_far _ _ hb hf]
    split_ifs <;> rfl
  · intro hpd
    rw [loopStep_far _ _ hb hf]
    have hc : ¬(DEBOUNCE_COUNT ≤ s.consecutiveNoDetections + 1 ∧
        s.platformDeployed = true) := by
      rintro ⟨-, hc⟩
      rw [hpd] at hc
      exact Bool.false_ne_true hc
    rw [if_neg hc]
    exact ⟨hpd, rfl⟩
  · norm_num [SimpleVariant.distanceOf]
  · norm_num [SimpleVariant.distanceOf, SimpleVariant.servoCommand]

/-- C2 witness: at the initial state, the sentinel keeps the platform
undeployed and counts toward retraction. -/
theorem C2_sentinel_no_train_run :
    (loopStep initState 999).platformDeployed = false ∧
    (loopStep initState 999).consecutiveNoDetections =
      initState.consecutiveNoDetections + 1 :=
  (C2_sentinel_no_train initState).2.2.2.1 rfl

/-- C3 counterexample: the claimed upper bound by DEBOUNCE_COUNT fails —
four consecutive far samples from the initial state drive
`consecutiveNoDetections` to 4 > 3, because the retract-side reset only
fires while the platform is deployed. -/
theorem C3_counter_bound_cex :
    (runLoop initState [30, 30, 30, 30]).consecutiveNoDetections = 4 ∧
    ¬(runLoop initState [30, 30, 30, 30]).consecutiveNoDetections ≤
      DEBOUNCE_COUNT := by
  decide

/-- C3 (amended): in every reachable state both counters are
non-negative; the detection counter is bounded by DEBOUNCE_COUNT whenever
the platform is not deployed and the no-detection counter is bounded by
DEBOUNCE_COUNT whenever it is deployed; and each counter is reset to zero
by any sample that does not meet its triggering condition. -/
theorem C3_counter_invariant (tr : List ℚ) :
    0 ≤ (runLoop initState tr).consecutiveDetections ∧
    0 ≤ (runLoop initState tr).consecutiveNoDetections ∧
    ((runLoop initState tr).platformDeployed = false →
      (runLoop initState tr).consecutiveDetections ≤ DEBOUNCE_COUNT) ∧
    ((runLoop initState tr).platformDeployed = true →
      (runLoop initState tr).consecutiveNoDetections ≤ DEBOUNCE_COUNT) ∧
    (∀ (s : ControlState) (d : ℚ),
      (¬(MIN_DISTANCE ≤ d ∧ d ≤ THRESHOLD_DISTANCE) →
        (loopStep s d).consecutiveDetections = 0) ∧
      (¬MAX_DISTANCE < d → (loopStep s d).consecutiveNoDetections = 0)) := by
  obtain ⟨h1, h2, -, -, h5, h6⟩ := runLoop_inv tr
  exact ⟨h1, h2, fun h => le_of_lt (h5 h), fun h => le_of_lt (h6 h),
    fun s d => ⟨loopStep_resets_detections s d, loopStep_resets_noDetections s d⟩⟩

/-- C3 witness: the bound and the resets at concrete inputs — one in-band
sample keeps the detection counter within DEBOUNCE_COUNT, and the
intermediate sample 22 zeroes both counters. -/
theorem C3_counter_invariant_run :
    (runLoop initState [18]).consecutiveDetections ≤ DEBOUNCE_COUNT ∧
    (loopStep initState 22).consecutiveDetections = 0 ∧
    (loopStep initState 22).consecutiveNoDetections = 0 :=
  ⟨(C3_counter_invariant [18]).2.2.1 (by decide),
   ((C3_counter_invariant []).2.2.2.2 initState 22).1 (by decide),
   ((C3_counter_invariant []).2.2.2.2 initState 22).2 (by decide)⟩

/-- C4 (amended): the debounced sketch's sampler contract — the `pulseIn`
call carries the 30 ms (30000 μs) timeout constant, a zero (timed-out)
duration yields the sentinel 999, and a non-zero duration yields
`duration * 0.0343 / 2` (exact arithmetic). -/
theorem C4_measureDistance_contract (duration : ℕ) :
    PULSE_TIMEOUT_US = 30 * 1000 ∧
    (duration = 0 → measureDistance duration = 999) ∧
    (duration ≠ 0 →
      measureDistance duration = ((duration : ℚ) * (343 / 10000)) / 2) := by
  refine ⟨rfl, fun h => by simp [measureDistance, h],
    fun h => by simp [measureDistance, h]⟩

/-- C4 witness: the contract evaluated at the timed-out duration 0 and at
the concrete duration 2000 μs. -/
theorem C4_measureDistance_contract_runs :
    measureDistance 0 = 999 ∧
    measureDistance 2000 = (((2000 : ℕ) : ℚ) * (343 / 10000)) / 2 :=
  ⟨(C4_measureDistance_contract 0).2.1 rfl,
   (C4_measureDistance_contract 2000).2.2 (by decide)⟩

/-- C4 counterexample: the simple variant's sampler does not meet the
§4.1 contract — a missing echo yields distance 0, not a large sentinel,
and the conversion at duration 2000 μs gives 34 cm where the 0.0343 cm/μs
contract formula gives 34.3 cm. -/
theorem C4_simple_sampler_cex :
    SimpleVariant.distanceOf 0 = 0 ∧ (0 : ℤ) ≠ 999 ∧
    (SimpleVariant.distanceOf 2000 : ℚ) ≠ (((2000 : ℕ) : ℚ) * (343 / 10000)) / 2 := by
  refine ⟨by norm_num [SimpleVariant.distanceOf], by decide, ?_⟩
  norm_num [SimpleVariant.distanceOf]

end GapFiller

namespace SimpleVariant

/-- C7 counterexample: distance 0 is strictly below the 25 cm threshold,
yet the simple sketch commands the retracted angle, not 90°, because its
deploy condition also requires `distance > 0`. -/
theorem C7_single_threshold_cex :
    (0 : ℤ) < 25 ∧ servoCommand 0 = 0 ∧ servoCommand 0 ≠ 90 := by
  decide

/-- C7 (amended): the simple sketch deploys (90°) exactly on distances
strictly between 0 and 25 and retracts (0°) on all others, with no
debounce; in particular 10 cm deploys immediately and 30 cm retracts
immediately. -/
theorem C7_single_threshold (d : ℤ) :
    (0 < d ∧ d < 25 → servoCommand d = 90) ∧
    (¬(0 < d ∧ d < 25) → servoCommand d = 0) ∧
    servoCommand 10 = 90 ∧
    servoCommand 30 = 0 := by
  refine ⟨fun h => by simp [servoCommand, h], fun h => by simp [servoCommand, h],
    by decide, by decide⟩

/-- C7 witness: the policy at the concrete distances 10 cm and 30 cm. -/
theorem C7_single_threshold_run :
    servoCommand 10 = 90 ∧ servoCommand 30 = 0 :=
  ⟨(C7_single_threshold 10).1 (by decide), (C7_single_threshold 30).2.1 (by decide)⟩

end SimpleVariant
